import Mathlib

/-!
Shallow embedding of `aws/agent_core/agentcore_langgraph_agent.py`.

The Python module wires a LangGraph agent: a `get_exchange_rate` tool, a
two-node graph (`assistant` node calling the model, `tools` node running the
`ToolNode`), startup configuration loaded from environment variables, an
optional Azure tracing callback, and a `BedrockAgentCoreApp` entrypoint
`invoke`.

Pure pieces (message formatting, last-message extraction, request
construction, environment validation) are translated directly.  Effectful
pieces (the HTTP fetch, the model call, the tool execution, the compiled
graph invocation) are made explicit: each is parameterized by the outcome of
its single external interaction (an oracle argument), and exceptions are
`Except` errors.
-/

namespace AgentCore

/-- Roles of chat messages handled by the agent. -/
inductive Role where
  | system
  | user
  | assistant
  | tool
deriving DecidableEq, Repr

/-- A tool call emitted by the model inside an assistant message. -/
structure ToolCall where
  id : String
  name : String
  args : List (String × String)
deriving DecidableEq, Repr

/-- A chat message as carried in the LangGraph `AgentState.messages` list.
`tool_calls` is non-empty only on assistant messages requesting tool
execution; `tool_call_id` is set only on tool-result messages. -/
structure Message where
  role : Role
  content : String
  tool_calls : List ToolCall := []
  tool_call_id : Option String := none
deriving DecidableEq, Repr

/-- The module-level `SYSTEM_PROMPT` constant. -/
def SYSTEM_PROMPT : String :=
  "You help users understand currency exchange rates and related context."

/-- Embedding of `_format_messages`: the system persona followed by the
user message. -/
def format_messages (user_message : String) : List Message :=
  [{ role := Role.system, content := SYSTEM_PROMPT },
   { role := Role.user, content := user_message }]

/-- The `payload` dict of `invoke`, restricted to the field the code reads:
an optional string field `prompt`. -/
structure Payload where
  prompt : Option String
deriving DecidableEq, Repr

/-- The default greeting used when the payload has no `prompt` field
(line `payload.get("prompt", "Hello! How can I help you today?")`). -/
def defaultGreeting : String := "Hello! How can I help you today?"

/-- The user message seeded by `invoke`:
`payload.get("prompt", defaultGreeting)`. -/
def seededUserMessage (payload : Payload) : String :=
  payload.prompt.getD defaultGreeting

/-- The initial conversation state handed to the compiled graph:
`{"messages": _format_messages(user_message)}`. -/
def seedMessages (payload : Payload) : List Message :=
  format_messages (seededUserMessage payload)

/-- A Python value, as far as `str(...)` in `_last_message_content`
observes it. -/
inductive PyVal where
  | pstr (s : String)
  | pnum (n : Int)
  | pnone
deriving DecidableEq, Repr

/-- Python `str(...)` on the values of `PyVal`. -/
def pyStr : PyVal → String
  | PyVal.pstr s => s
  | PyVal.pnum n => toString n
  | PyVal.pnone => "None"

/-- A member of the `messages` list of the graph result state, as
discriminated by `_last_message_content`: an object with a `content`
attribute, a dict (which never has a `content` attribute), or anything
else with its `str(...)` rendering. -/
inductive PyMessage where
  | obj (content : PyVal)
  | dict (fields : List (String × PyVal))
  | other (strRepr : String)
deriving DecidableEq, Repr

/-- Embedding of `_last_message_content`: empty list yields `""`; an
object with a `content` attribute yields `str(content)`; a dict yields
`str(d.get("content", ""))`; anything else yields `str(last_message)`. -/
def last_message_content (messages : List PyMessage) : String :=
  match messages.getLast? with
  | none => ""
  | some (PyMessage.obj c) => pyStr c
  | some (PyMessage.dict fields) => pyStr ((fields.lookup "content").getD (PyVal.pstr ""))
  | some (PyMessage.other s) => s

/-- The `AzureAIOpenTelemetryTracer` configuration built in
`_create_graph_executor` when tracing is enabled. -/
structure TracerCfg where
  connection_string : String
  enable_content_recording : Bool
  name : String
  agent_id : String
  provider_name : String
deriving DecidableEq, Repr

/-- Warning logged when `langchain-azure-ai` is not installed. -/
def tracerMissingWarning : String :=
  "langchain-azure-ai not installed; continuing without Azure Application Insights tracing."

/-- Info logged when no connection string is provided. -/
def tracerDisabledInfo : String :=
  "APPLICATION_INSIGHTS_CONNECTION_STRING not provided; Azure tracing disabled."

/-- Embedding of the tracer-selection part of `_create_graph_executor`:
given whether the optional tracing dependency imported
(`AzureAIOpenTelemetryTracer is None` when it did not) and the optional
connection string, return the tracer (if any) and the log lines emitted. -/
def create_graph_executor (tracerClassAvailable : Bool) (conn : Option String)
    (agentName agentId providerName : String) : Option TracerCfg × List String :=
  if tracerClassAvailable then
    match conn with
    | none => (none, [tracerDisabledInfo])
    | some c =>
      if c = "" then (none, [tracerDisabledInfo])
      else (some { connection_string := c, enable_content_recording := true,
                   name := agentName, agent_id := agentId,
                   provider_name := providerName }, [])
  else (none, [tracerMissingWarning])

/-- The value returned by `invoke`: a dict with the single key `result`
holding a string. -/
structure InvokeResult where
  result : String
deriving DecidableEq, Repr

/-- The error text produced by the top-level `except` handler of `invoke`
for an exception rendered as `exc`. -/
def errorText (exc : String) : String :=
  "Error while processing request: " ++ exc

/-- Embedding of the entrypoint `invoke`.  `graphInvoke` stands for
`compiled_graph.invoke`: it receives the seeded messages and the tracer
callback configuration (present exactly when `azure_tracer` is set) and
either returns the `messages` of the result state or raises, rendered as
an `Except.error` string.  The `try` block converts any raise into the
error text; `_last_message_content` extracts the answer on success. -/
def invoke (payload : Payload)
    (graphInvoke : List Message → Option TracerCfg → Except String (List PyMessage))
    (azure_tracer : Option TracerCfg) : InvokeResult :=
  let outcome :=
    match azure_tracer with
    | some t => graphInvoke (seedMessages payload) (some t)
    | none => graphInvoke (seedMessages payload) none
  match outcome with
  | Except.ok resultMessages => { result := last_message_content resultMessages }
  | Except.error exc => { result := errorText exc }

/-- A JSON value, the parse result of `response.json()`. -/
inductive Json where
  | null
  | bool (b : Bool)
  | num (n : Int)
  | str (s : String)
  | arr (elems : List Json)
  | obj (fields : List (String × Json))

/-- An outbound HTTP request as issued by `requests.get` in
`get_exchange_rate`. -/
structure HttpRequest where
  method : String
  url : String
  params : List (String × String)
  timeout : Nat
deriving DecidableEq, Repr

/-- The single request `get_exchange_rate` builds:
`GET https://api.frankfurter.app/{currency_date}` with
`params={"base": currency_from, "symbols": currency_to}` and `timeout=10`. -/
def exchangeRateRequest (currency_from currency_to currency_date : String) : HttpRequest :=
  { method := "GET"
    url := "https://api.frankfurter.app/" ++ currency_date
    params := [("base", currency_from), ("symbols", currency_to)]
    timeout := 10 }

/-- The outcome of the one `requests.get` call: either the library raises a
`RequestException` (network failure, rendered by its cause), or a response
arrives with a status code and a body whose JSON parse either succeeds or
fails with a decode-error message. -/
inductive FetchOutcome where
  | reqError (cause : String)
  | response (status : Nat) (body : Except String Json)

/-- The Python exceptions that can escape `get_exchange_rate`: the
`ValueError` it raises itself (with its chained cause), or the JSON decode
error raised by `response.json()`. -/
inductive PyError where
  | valueError (msg : String) (cause : Option String)
  | jsonDecodeError (msg : String)

/-- The message of the `ValueError` raised by `get_exchange_rate`. -/
def rateLookupFailedMsg : String := "Failed to retrieve exchange rate data"

/-- Whether an outcome is the normalized "rate lookup failed" failure kind
(the `ValueError` raised inside `get_exchange_rate`). -/
def isRateLookupFailure : Except PyError Json → Bool
  | Except.error (PyError.valueError msg _) => msg = rateLookupFailedMsg
  | _ => false

/-- Embedding of `get_exchange_rate`.  Returns the list of outbound
requests issued (always the one `exchangeRateRequest`, no retries) together
with the result: a `RequestException` from `requests.get`, or the
`HTTPError` from `response.raise_for_status()` on a 4xx/5xx status, is
caught and re-raised as `ValueError(rateLookupFailedMsg) from exc`;
otherwise `response.json()` runs outside the `try` block, so a body parse
failure raises its decode error directly. -/
def get_exchange_rate (currency_from currency_to currency_date : String)
    (outcome : FetchOutcome) : List HttpRequest × Except PyError Json :=
  (([exchangeRateRequest currency_from currency_to currency_date]),
   match outcome with
   | FetchOutcome.reqError cause =>
     Except.error (PyError.valueError rateLookupFailedMsg (some cause))
   | FetchOutcome.response status body =>
     if 400 ≤ status ∧ status < 600 then
       Except.error (PyError.valueError rateLookupFailedMsg
         (some ("HTTPError for status " ++ toString status)))
     else
       match body with
       | Except.error decodeMsg => Except.error (PyError.jsonDecodeError decodeMsg)
       | Except.ok parsed => Except.ok parsed)

/-- The error message of `_require_env` for a missing or empty variable. -/
def missingEnvMsg (key : String) : String :=
  "Missing required environment variable \x27" ++ key ++
    "\x27. Populate aws/agent_core/.env first."

/-- Embedding of `_require_env`: `os.getenv(key)` followed by
`if not value`, which rejects both an absent variable and an empty
string. -/
def require_env (env : String → Option String) (key : String) : Except String String :=
  match env key with
  | none => Except.error (missingEnvMsg key)
  | some v => if v = "" then Except.error (missingEnvMsg key) else Except.ok v

/-- The module-level configuration read at import time. -/
structure Config where
  aws_region : String
  bedrock_model_id : String
  application_insights_connection_string : Option String
  agent_name : String
  agent_id : String
  provider_name : String
deriving DecidableEq, Repr

/-- The required environment variables, in the order the module reads
them. -/
def requiredKeys : List String :=
  ["AWS_REGION", "BEDROCK_MODEL_ID", "AGENT_NAME", "AGENT_ID", "PROVIDER_NAME"]

/-- Embedding of the module-level startup sequence (lines 40-45): each
`_require_env` raises out of the import — aborting startup — on the first
missing required variable, while `APPLICATION_INSIGHTS_CONNECTION_STRING`
is read with plain `os.getenv` and may be absent. -/
def startupConfig (env : String → Option String) : Except String Config :=
  match require_env env "AWS_REGION" with
  | Except.error e => Except.error e
  | Except.ok region =>
    match require_env env "BEDROCK_MODEL_ID" with
    | Except.error e => Except.error e
    | Except.ok modelId =>
      let conn := env "APPLICATION_INSIGHTS_CONNECTION_STRING"
      match require_env env "AGENT_NAME" with
      | Except.error e => Except.error e
      | Except.ok agentName =>
        match require_env env "AGENT_ID" with
        | Except.error e => Except.error e
        | Except.ok agentId =>
          match require_env env "PROVIDER_NAME" with
          | Except.error e => Except.error e
          | Except.ok providerName =>
            Except.ok { aws_region := region, bedrock_model_id := modelId,
                        application_insights_connection_string := conn,
                        agent_name := agentName, agent_id := agentId,
                        provider_name := providerName }

/-- The nodes of the compiled graph built by `_build_langgraph`, plus the
terminal `END` vertex (`done`). -/
inductive Node where
  | assistant
  | tools
  | done
deriving DecidableEq, Repr

/-- The external collaborators of one graph execution: `model` stands for
`llm_with_tools.invoke` (the assistant message the model returns for a given
history) and `toolExec` for executing `get_exchange_rate` on one tool call
(the serialized content of the resulting tool message). -/
structure Oracle where
  model : List Message → Message
  toolExec : ToolCall → String

/-- The tool calls of the last message of the state, which is what
`tools_condition` and `ToolNode` inspect. -/
def pendingToolCalls (msgs : List Message) : List ToolCall :=
  match msgs.getLast? with
  | none => []
  | some m => m.tool_calls

/-- Embedding of `langgraph.prebuilt.tools_condition` as wired by
`add_conditional_edges("assistant", tools_condition)`: route to the
`tools` node when the last message carries tool calls, otherwise to
`END`. -/
def tools_condition (msgs : List Message) : Node :=
  if (pendingToolCalls msgs).isEmpty then Node.done else Node.tools

/-- The `assistant` node (`call_model`): invoke the model on the current
messages and append the response (the `add_messages` reducer). -/
def callModel (o : Oracle) (msgs : List Message) : List Message :=
  msgs ++ [o.model msgs]

/-- The tool-result messages the `ToolNode` appends: one tool-role message
per tool call of the last assistant message, in the order the model emitted
them, each correlated by `tool_call_id`. -/
def toolResults (o : Oracle) (calls : List ToolCall) : List Message :=
  calls.map (fun tc =>
    { role := Role.tool, content := o.toolExec tc, tool_call_id := some tc.id })

/-- The `tools` node: append one tool-result message per pending tool
call. -/
def runToolNode (o : Oracle) (msgs : List Message) : List Message :=
  msgs ++ toolResults o (pendingToolCalls msgs)

/-- One transition of the compiled graph: run the current node on the
state, then follow the outgoing edge of that node (`assistant` leaves through
`tools_condition`; `tools` has the unconditional edge back to
`assistant`). -/
def step (o : Oracle) : Node → List Message → Node × List Message
  | Node.assistant, msgs =>
    let msgs' := callModel o msgs
    (tools_condition msgs', msgs')
  | Node.tools, msgs => (Node.assistant, runToolNode o msgs)
  | Node.done, msgs => (Node.done, msgs)

/-- Fuelled execution of the graph from a node: repeat `step` until the
`END` vertex (or the fuel runs out, returning the node reached). -/
def run (o : Oracle) : Nat → Node → List Message → Node × List Message
  | 0, n, msgs => (n, msgs)
  | _ + 1, Node.done, msgs => (Node.done, msgs)
  | fuel + 1, n, msgs =>
    let next := step o n msgs
    run o fuel next.1 next.2

/-- The content of the last message of a conversation state, which is what
the caller receives once the graph reaches `END`. -/
def lastContent (msgs : List Message) : String :=
  match msgs.getLast? with
  | none => ""
  | some m => m.content

/-! Claim theorems. -/

/-- C1: for every payload, `invoke` returns a mapping with the single
field `result` holding a string: the extracted final assistant text when
the graph invocation succeeds, and the string
`"Error while processing request: "` followed by the textual rendering of
the failure when the graph invocation raises; being a total function,
`invoke` never raises past this boundary. -/
theorem invoke_result_contract (p : Payload) (tr : Option TracerCfg)
    (st : List PyMessage) (e : String) :
    invoke p (fun _ _ => Except.ok st) tr = { result := last_message_content st }
  ∧ invoke p (fun _ _ => Except.error e) tr =
      { result := "Error while processing request: " ++ e } := by
  cases tr <;> exact ⟨rfl, rfl⟩

/-- C6: for every user message string, the conversation state handed to
the compiled graph is exactly two messages — first the system message
carrying the fixed currency-exchange persona prompt, then the user message
carrying the supplied string. -/
theorem seed_messages_shape (p : Payload) (m : String) :
    format_messages m =
      [{ role := Role.system,
         content := "You help users understand currency exchange rates and related context.",
         tool_calls := [], tool_call_id := none },
       { role := Role.user, content := m, tool_calls := [], tool_call_id := none }]
  ∧ seedMessages p = format_messages (seededUserMessage p)
  ∧ (seedMessages p).length = 2
  ∧ (seedMessages p).map (fun msg => msg.role) = [Role.system, Role.user] := by
  exact ⟨rfl, rfl, rfl, rfl⟩

/-- C7: a payload without a `prompt` field seeds the fixed default
greeting as the user message, and `invoke` behaves on it exactly as on a
payload whose `prompt` is that greeting; a present `prompt` value is used
as the user message. -/
theorem default_prompt_seeding
    (gi : List Message → Option TracerCfg → Except String (List PyMessage))
    (tr : Option TracerCfg) (s : String) :
    seededUserMessage { prompt := none } = "Hello! How can I help you today?"
  ∧ seededUserMessage { prompt := some s } = s
  ∧ invoke { prompt := none } gi tr =
      invoke { prompt := some "Hello! How can I help you today?" } gi tr := by
  refine ⟨rfl, rfl, ?_⟩
  cases tr <;> rfl

/-- C10: `_last_message_content` is total over every message list: the
empty list yields the empty string; a last element carrying a `content`
attribute yields the string rendering of that content; a dict last element
yields the string rendering of its `content` entry, defaulting to the
empty string when the key is absent; any other last element yields its own
string rendering.  Consequently the `result` value of `invoke` is always a
string and extraction never raises. -/
theorem last_message_content_cases (ms : List PyMessage) (c : PyVal)
    (fields : List (String × PyVal)) (s : String) :
    last_message_content [] = ""
  ∧ last_message_content (ms ++ [PyMessage.obj c]) = pyStr c
  ∧ last_message_content (ms ++ [PyMessage.dict fields]) =
      (match fields.lookup "content" with
       | some v => pyStr v
       | none => "")
  ∧ last_message_content (ms ++ [PyMessage.other s]) = s := by
  refine ⟨rfl, ?_, ?_, ?_⟩
  · simp [last_message_content, List.getLast?_concat]
  · simp only [last_message_content, List.getLast?_concat]
    cases h : fields.lookup "content" <;> simp [h, pyStr]
  · simp [last_message_content, List.getLast?_concat]

/-- C4 counterexample: the single request issued by `get_exchange_rate`
carries no query parameter named `target`; the target currency travels
under the parameter name `symbols` instead, refuting the claimed parameter
names at the concrete input (USD, EUR, latest). -/
theorem get_exchange_rate_no_target_param :
    ((get_exchange_rate "USD" "EUR" "latest" (FetchOutcome.reqError "timeout")).1.map
      (fun r => r.params.lookup "target")) = [none]
  ∧ ((get_exchange_rate "USD" "EUR" "latest" (FetchOutcome.reqError "timeout")).1.map
      (fun r => r.params.lookup "symbols")) = [some "EUR"] := by
  exact ⟨rfl, rfl⟩

/-- C4 amended: each invocation of `get_exchange_rate` issues exactly one
outbound HTTP GET request (no retries) to the rate-service endpoint
parameterized in the URL path by the date argument, passing the base
currency under the query parameter `base` and the target currency under
the query parameter `symbols`, with a fixed timeout of 10 time units. -/
theorem get_exchange_rate_single_request (currency_from currency_to currency_date : String)
    (outcome : FetchOutcome) :
    (get_exchange_rate currency_from currency_to currency_date outcome).1 =
      [{ method := "GET",
         url := "https://api.frankfurter.app/" ++ currency_date,
         params := [("base", currency_from), ("symbols", currency_to)],
         timeout := 10 }]
  ∧ (get_exchange_rate currency_from currency_to currency_date outcome).1.length = 1 := by
  exact ⟨rfl, rfl⟩

/-- C2 counterexample: a malformed response body is not normalized into
the "rate lookup failed" kind.  At the concrete input (status 200, body
parse failing), `get_exchange_rate` raises the JSON decode error of
`response.json()` — which runs outside the `try` block — rather than the
normalized `ValueError`. -/
theorem get_exchange_rate_malformed_body_escapes :
    (get_exchange_rate "USD" "EUR" "latest"
        (FetchOutcome.response 200 (Except.error "Expecting value"))).2 =
      Except.error (PyError.jsonDecodeError "Expecting value")
  ∧ isRateLookupFailure
      (get_exchange_rate "USD" "EUR" "latest"
        (FetchOutcome.response 200 (Except.error "Expecting value"))).2 = false := by
  exact ⟨rfl, rfl⟩

/-- C2 amended: a network error from the HTTP client, and a non-success
(4xx/5xx) status via `raise_for_status`, are each normalized into the
single "rate lookup failed" `ValueError` carrying the underlying cause;
but a malformed response body is not — `response.json()` is evaluated
outside the `try` block, so its JSON decode error propagates to the caller
unwrapped, and a well-formed body on a success status is returned as
parsed. -/
theorem get_exchange_rate_failure_kinds (currency_from currency_to currency_date : String)
    (cause : String) (errStatus okStatus : Nat) (body : Except String Json)
    (decodeMsg : String) (parsed : Json)
    (hErr : 400 ≤ errStatus ∧ errStatus < 600)
    (hOk : ¬(400 ≤ okStatus ∧ okStatus < 600)) :
    (get_exchange_rate currency_from currency_to currency_date
        (FetchOutcome.reqError cause)).2 =
      Except.error (PyError.valueError rateLookupFailedMsg (some cause))
  ∧ (get_exchange_rate currency_from currency_to currency_date
        (FetchOutcome.response errStatus body)).2 =
      Except.error (PyError.valueError rateLookupFailedMsg
        (some ("HTTPError for status " ++ toString errStatus)))
  ∧ (get_exchange_rate currency_from currency_to currency_date
        (FetchOutcome.response okStatus (Except.error decodeMsg))).2 =
      Except.error (PyError.jsonDecodeError decodeMsg)
  ∧ (get_exchange_rate currency_from currency_to currency_date
        (FetchOutcome.response okStatus (Except.ok parsed))).2 = Except.ok parsed := by
  refine ⟨rfl, ?_, ?_, ?_⟩ <;> simp [get_exchange_rate, hErr, hOk]

/-- C2 witness: the amended failure-kind theorem instantiated at concrete
currencies, a 503 error status and a 200 success status. -/
theorem get_exchange_rate_failure_kinds_witness :
    (get_exchange_rate "USD" "EUR" "latest" (FetchOutcome.reqError "timeout")).2 =
      Except.error (PyError.valueError rateLookupFailedMsg (some "timeout"))
  ∧ (get_exchange_rate "USD" "EUR" "latest"
        (FetchOutcome.response 503 (Except.ok Json.null))).2 =
      Except.error (PyError.valueError rateLookupFailedMsg
        (some ("HTTPError for status " ++ toString 503)))
  ∧ (get_exchange_rate "USD" "EUR" "latest"
        (FetchOutcome.response 200 (Except.error "bad json"))).2 =
      Except.error (PyError.jsonDecodeError "bad json")
  ∧ (get_exchange_rate "USD" "EUR" "latest"
        (FetchOutcome.response 200 (Except.ok Json.null))).2 = Except.ok Json.null :=
  get_exchange_rate_failure_kinds "USD" "EUR" "latest" "timeout" 503 200
    (Except.ok Json.null) "bad json" Json.null (by decide) (by decide)

/-- C9: with the same graph behavior on the same messages, `invoke` under
a configured tracer returns exactly the result it returns without one —
the tracer only changes which callback configuration is passed along; and
when the tracing dependency is unavailable the executor setup logs the
warning and proceeds with no tracer, as it does (with an info line) when
the connection string is absent. -/
theorem tracing_noninterference (p : Payload)
    (gi : List Message → Option TracerCfg → Except String (List PyMessage))
    (t : TracerCfg) (conn : Option String) (agentName agentId providerName : String)
    (h : ∀ msgs c1 c2, gi msgs c1 = gi msgs c2) :
    invoke p gi (some t) = invoke p gi none
  ∧ create_graph_executor false conn agentName agentId providerName =
      (none, [tracerMissingWarning])
  ∧ create_graph_executor true none agentName agentId providerName =
      (none, [tracerDisabledInfo]) := by
  refine ⟨?_, rfl, rfl⟩
  have hg := h (seedMessages p) (some t) none
  simp [invoke, hg]

/-- C9 witness: the tracing-noninterference theorem applied to a concrete
constant graph behavior and a concrete tracer configuration. -/
theorem tracing_noninterference_witness :
    invoke { prompt := none } (fun _ _ => Except.ok [PyMessage.obj (PyVal.pstr "hi")])
        (some { connection_string := "InstrumentationKey=abc",
                enable_content_recording := true, name := "currency-agent",
                agent_id := "agent-1", provider_name := "aws" }) =
      invoke { prompt := none } (fun _ _ => Except.ok [PyMessage.obj (PyVal.pstr "hi")]) none
  ∧ create_graph_executor false none "currency-agent" "agent-1" "aws" =
      (none, [tracerMissingWarning])
  ∧ create_graph_executor true none "currency-agent" "agent-1" "aws" =
      (none, [tracerDisabledInfo]) :=
  tracing_noninterference { prompt := none }
    (fun _ _ => Except.ok [PyMessage.obj (PyVal.pstr "hi")])
    { connection_string := "InstrumentationKey=abc", enable_content_recording := true,
      name := "currency-agent", agent_id := "agent-1", provider_name := "aws" }
    none "currency-agent" "agent-1" "aws" (fun _ _ _ => rfl)

/-- C8: if any required environment variable is absent, the module-level
startup fails with the fatal error naming a required variable that is
absent (or empty — the code rejects both); and when every required
variable holds a non-empty value, startup succeeds no matter whether the
optional tracing connection string is present, which is merely recorded. -/
theorem startup_requires_env (env : String → Option String) :
    (∀ k, k ∈ requiredKeys → env k = none →
        ∃ k2, k2 ∈ requiredKeys ∧ (env k2 = none ∨ env k2 = some "") ∧
          startupConfig env = Except.error (missingEnvMsg k2))
  ∧ ((∀ k, k ∈ requiredKeys → ∃ v, env k = some v ∧ v ≠ "") →
        ∃ c, startupConfig env = Except.ok c ∧
          c.application_insights_connection_string =
            env "APPLICATION_INSIGHTS_CONNECTION_STRING") := by
  constructor
  · intro k hk hnone
    rcases hA : env "AWS_REGION" with _ | vA
    · exact ⟨"AWS_REGION", by simp [requiredKeys], Or.inl hA,
        by simp [startupConfig, require_env, hA]⟩
    by_cases hAe : vA = ""
    · exact ⟨"AWS_REGION", by simp [requiredKeys], Or.inr (by rw [hA, hAe]),
        by simp [startupConfig, require_env, hA, hAe]⟩
    rcases hB : env "BEDROCK_MODEL_ID" with _ | vB
    · exact ⟨"BEDROCK_MODEL_ID", by simp [requiredKeys], Or.inl hB,
        by simp [startupConfig, require_env, hA, hAe, hB]⟩
    by_cases hBe : vB = ""
    · exact ⟨"BEDROCK_MODEL_ID", by simp [requiredKeys], Or.inr (by rw [hB, hBe]),
        by simp [startupConfig, require_env, hA, hAe, hB, hBe]⟩
    rcases hN : env "AGENT_NAME" with _ | vN
    · exact ⟨"AGENT_NAME", by simp [requiredKeys], Or.inl hN,
        by simp [startupConfig, require_env, hA, hAe, hB, hBe, hN]⟩
    by_cases hNe : vN = ""
    · exact ⟨"AGENT_NAME", by simp [requiredKeys], Or.inr (by rw [hN, hNe]),
        by simp [startupConfig, require_env, hA, hAe, hB, hBe, hN, hNe]⟩
    rcases hI : env "AGENT_ID" with _ | vI
    · exact ⟨"AGENT_ID", by simp [requiredKeys], Or.inl hI,
        by simp [startupConfig, require_env, hA, hAe, hB, hBe, hN, hNe, hI]⟩
    by_cases hIe : vI = ""
    · exact ⟨"AGENT_ID", by simp [requiredKeys], Or.inr (by rw [hI, hIe]),
        by simp [startupConfig, require_env, hA, hAe, hB, hBe, hN, hNe, hI, hIe]⟩
    rcases hP : env "PROVIDER_NAME" with _ | vP
    · exact ⟨"PROVIDER_NAME", by simp [requiredKeys], Or.inl hP,
        by simp [startupConfig, require_env, hA, hAe, hB, hBe, hN, hNe, hI, hIe, hP]⟩
    exfalso
    simp [requiredKeys] at hk
    rcases hk with rfl | rfl | rfl | rfl | rfl
    · simp [hA] at hnone
    · simp [hB] at hnone
    · simp [hN] at hnone
    · simp [hI] at hnone
    · simp [hP] at hnone
  · intro hall
    obtain ⟨vA, hA, hAe⟩ := hall "AWS_REGION" (by simp [requiredKeys])
    obtain ⟨vB, hB, hBe⟩ := hall "BEDROCK_MODEL_ID" (by simp [requiredKeys])
    obtain ⟨vN, hN, hNe⟩ := hall "AGENT_NAME" (by simp [requiredKeys])
    obtain ⟨vI, hI, hIe⟩ := hall "AGENT_ID" (by simp [requiredKeys])
    obtain ⟨vP, hP, hPe⟩ := hall "PROVIDER_NAME" (by simp [requiredKeys])
    refine ⟨{ aws_region := vA, bedrock_model_id := vB,
              application_insights_connection_string :=
                env "APPLICATION_INSIGHTS_CONNECTION_STRING",
              agent_name := vN, agent_id := vI, provider_name := vP }, ?_, rfl⟩
    simp [startupConfig, require_env, hA, hAe, hB, hBe, hN, hNe, hI, hIe, hP, hPe]

/-- Environment with every required variable set and AGENT_ID absent. -/
def envMissingAgentId : String → Option String := fun k =>
  if k = "AGENT_ID" then none else some "value"

/-- Environment with every required variable set to a non-empty value and
the optional tracing connection string absent. -/
def envComplete : String → Option String := fun k =>
  if k = "AWS_REGION" then some "us-east-1"
  else if k = "BEDROCK_MODEL_ID" then some "anthropic.claude-3"
  else if k = "AGENT_NAME" then some "currency-exchange-agent"
  else if k = "AGENT_ID" then some "agent-1"
  else if k = "PROVIDER_NAME" then some "aws.bedrock"
  else none

/-- C8 witness: startup fails on an environment missing AGENT_ID, and
succeeds on a complete environment with the tracing connection string
absent. -/
theorem startup_requires_env_witness :
    (∃ k2, k2 ∈ requiredKeys ∧
        (envMissingAgentId k2 = none ∨ envMissingAgentId k2 = some "") ∧
        startupConfig envMissingAgentId = Except.error (missingEnvMsg k2))
  ∧ (∃ c, startupConfig envComplete = Except.ok c ∧
        c.application_insights_connection_string =
          envComplete "APPLICATION_INSIGHTS_CONNECTION_STRING") :=
  ⟨(startup_requires_env envMissingAgentId).1 "AGENT_ID" (by simp [requiredKeys])
      (by simp [envMissingAgentId]),
   (startup_requires_env envComplete).2 (by
      intro k hk
      simp [requiredKeys] at hk
      rcases hk with rfl | rfl | rfl | rfl | rfl
      · exact ⟨"us-east-1", by simp [envComplete], by simp⟩
      · exact ⟨"anthropic.claude-3", by simp [envComplete], by simp⟩
      · exact ⟨"currency-exchange-agent", by simp [envComplete], by simp⟩
      · exact ⟨"agent-1", by simp [envComplete], by simp⟩
      · exact ⟨"aws.bedrock", by simp [envComplete], by simp⟩)⟩

/-- C3: the agent loop is the claimed state machine.  From the assistant
turn, the model response is appended and the loop moves to the terminal
vertex exactly when the response has no pending tool calls, and to the
tool turn otherwise; the tool turn runs the tool node and transitions
unconditionally back to the assistant turn, never terminating directly; a
full run from the assistant turn either stops at the terminal vertex with
the response as last message — whose content is what the caller receives —
or continues from the assistant turn after the tool node ran. -/
theorem agent_loop_state_machine (o : Oracle) (msgs : List Message) (fuel : Nat) :
    step o Node.assistant msgs =
      (if (o.model msgs).tool_calls.isEmpty then Node.done else Node.tools,
       msgs ++ [o.model msgs])
  ∧ step o Node.tools msgs = (Node.assistant, runToolNode o msgs)
  ∧ run o (fuel + 2) Node.assistant msgs =
      (if (o.model msgs).tool_calls.isEmpty then (Node.done, msgs ++ [o.model msgs])
       else run o fuel Node.assistant (runToolNode o (msgs ++ [o.model msgs])))
  ∧ lastContent (msgs ++ [o.model msgs]) = (o.model msgs).content := by
  refine ⟨?_, rfl, ?_, ?_⟩
  · simp [step, callModel, tools_condition, pendingToolCalls, List.getLast?_concat]
  · cases h : (o.model msgs).tool_calls.isEmpty with
    | true =>
      simp [run, step, callModel, tools_condition, pendingToolCalls,
        List.getLast?_concat, h]
    | false =>
      simp [run, step, callModel, tools_condition, pendingToolCalls,
        List.getLast?_concat, h]
  · simp [lastContent, List.getLast?_concat]

/-- C5: immediately after a tool turn, the appended tool-result messages
are exactly one per tool call of the immediately preceding assistant
message, their `tool_call_id` values match those tool calls one-to-one in
the same order, every appended message is tool-role, and the loop hands
control back to the assistant turn only with every tool call of that
assistant message resolved by a matching tool-result message in the
state. -/
theorem tool_turn_resolves_all (o : Oracle) (msgs : List Message) (am : Message)
    (h : msgs.getLast? = some am) :
    step o Node.tools msgs = (Node.assistant, msgs ++ toolResults o am.tool_calls)
  ∧ (toolResults o am.tool_calls).length = am.tool_calls.length
  ∧ (toolResults o am.tool_calls).map (fun m => m.tool_call_id) =
      am.tool_calls.map (fun tc => some tc.id)
  ∧ (∀ m, m ∈ toolResults o am.tool_calls → m.role = Role.tool)
  ∧ (∀ tc, tc ∈ am.tool_calls →
        ∃ m, m ∈ (step o Node.tools msgs).2 ∧ m.role = Role.tool ∧
          m.tool_call_id = some tc.id) := by
  refine ⟨?_, ?_, ?_, ?_, ?_⟩
  · simp [step, runToolNode, pendingToolCalls, h]
  · simp [toolResults]
  · simp [toolResults]
  · intro m hm
    simp [toolResults] at hm
    obtain ⟨tc, _, rfl⟩ := hm
    rfl
  · intro tc htc
    refine ⟨{ role := Role.tool, content := o.toolExec tc, tool_call_id := some tc.id },
      ?_, rfl, rfl⟩
    simp [step, runToolNode, pendingToolCalls, h, toolResults, List.mem_append,
      List.mem_map]
    right
    exact ⟨tc, htc, rfl, rfl⟩

/-- Oracle for the C5 witness: the model always answers terminally and the
tool returns a fixed serialized payload. -/
def witnessOracle : Oracle :=
  { model := fun _ => { role := Role.assistant, content := "done" },
    toolExec := fun _ => "rate data" }

/-- Assistant message for the C5 witness, requesting two tool calls. -/
def witnessAssistantMsg : Message :=
  { role := Role.assistant, content := "",
    tool_calls :=
      [{ id := "call-1", name := "get_exchange_rate",
         args := [("currency_from", "USD"), ("currency_to", "EUR")] },
       { id := "call-2", name := "get_exchange_rate",
         args := [("currency_date", "2024-01-02")] }] }

/-- C5 witness: the tool-turn invariant instantiated at a concrete state
ending in an assistant message with two tool calls. -/
theorem tool_turn_resolves_all_witness :
    ([witnessAssistantMsg] : List Message).getLast? = some witnessAssistantMsg
  ∧ (step witnessOracle Node.tools [witnessAssistantMsg] =
        (Node.assistant,
         [witnessAssistantMsg] ++ toolResults witnessOracle witnessAssistantMsg.tool_calls)
    ∧ (toolResults witnessOracle witnessAssistantMsg.tool_calls).length =
        witnessAssistantMsg.tool_calls.length
    ∧ (toolResults witnessOracle witnessAssistantMsg.tool_calls).map
          (fun m => m.tool_call_id) =
        witnessAssistantMsg.tool_calls.map (fun tc => some tc.id)
    ∧ (∀ m, m ∈ toolResults witnessOracle witnessAssistantMsg.tool_calls →
          m.role = Role.tool)
    ∧ (∀ tc, tc ∈ witnessAssistantMsg.tool_calls →
          ∃ m, m ∈ (step witnessOracle Node.tools [witnessAssistantMsg]).2 ∧
            m.role = Role.tool ∧ m.tool_call_id = some tc.id)) :=
  ⟨rfl, tool_turn_resolves_all witnessOracle [witnessAssistantMsg] witnessAssistantMsg rfl⟩

end AgentCore
